import Mathlib

/-!
Verification of the background-remover image pipeline.

The definitions below are a shallow embedding of the TypeScript sources:
  - src/features/backgroundRemover/libs/image-processor.ts (ImageProcessor)
  - src/features/backgroundRemover/libs/background-removal.ts and the
    divergent variant in src/unnamed/part_000 (BackgroundRemovalService)
  - src/app/api/images/upload/route.ts (primary background-dispatch POST and
    the inline debugging variant POST)
  - src/app/api/images/[id]/route.ts (GET status, DELETE)
  - src/app/api/images/[id]/process/route.ts (reprocess POST)
  - src/unnamed/part_009 (GET images by session)

External collaborators (Supabase storage and database, the remove.bg and
clipdrop HTTP providers, the sharp image library) are modelled by explicit
outcome parameters: each external call site takes the outcome the
collaborator would return, and the embedded control flow around those
outcomes is translated line by line from the source.  Database status
updates issued by the pipeline are modelled as succeeding writes; every
write the code performs is recorded in an explicit update trace.
-/

namespace BgRemover

/-- Processing status of a job, from types/image.ts: ProcessingStatus. -/
inductive Status
  | pending
  | processing
  | completed
  | failed
deriving DecidableEq, Repr

/-- A row of the processed_images table (types/image.ts: ProcessedImage).
Timestamps are modelled as naturals; dimensions are inlined as two fields. -/
structure Job where
  id : Nat
  original_filename : String
  original_url : String
  processed_url : Option String
  status : Status
  error_message : Option String
  file_size : Nat
  dim_width : Nat
  dim_height : Nat
  processing_time_ms : Option Nat
  user_session_id : Option String
  created_at : Nat
  updated_at : Nat
deriving DecidableEq, Repr

/-- DEFAULT_CONFIG.maxFileSize in image-processor.ts: 50 * 1024 * 1024 bytes. -/
def maxFileSize : Nat := 50 * 1024 * 1024

/-- DEFAULT_CONFIG.allowedFormats in image-processor.ts. -/
def allowedFormats : List String :=
  ["image/jpeg", "image/png", "image/webp", "image/gif"]

/-- DEFAULT_CONFIG.maxDimensions.width in image-processor.ts. -/
def maxDimWidth : Nat := 4096

/-- DEFAULT_CONFIG.maxDimensions.height in image-processor.ts. -/
def maxDimHeight : Nat := 4096

/-- The parts of a browser File object the upload route reads. -/
structure FileInfo where
  name : String
  size : Nat
  mime : String
deriving DecidableEq, Repr

/-- Return value of ImageProcessor.validateFile. -/
structure ValidationResult where
  valid : Bool
  error : Option String
deriving DecidableEq, Repr

/-- ImageProcessor.validateFile: size check first, then MIME type check. -/
def validateFile (file : FileInfo) : ValidationResult :=
  if maxFileSize < file.size then
    { valid := false
      error := some "File size exceeds maximum allowed size of 50MB" }
  else if file.mime ∈ allowedFormats then
    { valid := true, error := none }
  else
    { valid := false
      error := some ("File type " ++ file.mime ++ " is not supported") }

/-- JavaScript Math.round applied to the nonnegative rational num / den,
namely the floor of num / den + 1 / 2, computed in integers. -/
def jsRound (num den : Nat) : Nat := (2 * num + den) / (2 * den)

/-- The dimension arithmetic of ImageProcessor.resizeIfNeeded: pass through
when both dimensions are within bounds; otherwise set the width to the
maximum and round the height from the aspect ratio, and if that rounded
height still exceeds its bound, recompute the width from the bounded height
instead. newHeight is Math.round of newWidth / (width / height), that is
Math.round of newWidth * height / width, and symmetrically for the second
pass. -/
def resizeDims (width height : Nat) : Nat × Nat :=
  if width ≤ maxDimWidth ∧ height ≤ maxDimHeight then
    (width, height)
  else
    let newWidth := maxDimWidth
    let newHeight := jsRound (newWidth * height) width
    if maxDimHeight < newHeight then
      (jsRound (maxDimHeight * width) height, maxDimHeight)
    else
      (newWidth, newHeight)

example : resizeDims 500 500 = (500, 500) := by decide
example : resizeDims 5000 5000 = (4096, 4096) := by decide
example : resizeDims 8192 4096 = (4096, 2048) := by decide
example : resizeDims 100 5000 = (82, 4096) := by decide

/-! Background-removal service (background-removal.ts and src/unnamed/part_000). -/

/-- The BackgroundRemovalConfig fields the service logic reads: the selected
service name and whether this.config.apiKey is a nonempty string. -/
structure RbConfig where
  service : String
  apiKeyPresent : Bool
deriving DecidableEq, Repr

/-- Process environment fields read by the service: NODE_ENV and whether
CLIPDROP_API_KEY is set. -/
structure RbEnv where
  nodeEnv : String
  clipdropKeyPresent : Bool
deriving DecidableEq, Repr

/-- BackgroundRemovalService.mockBackgroundRemoval: returns the input buffer
unchanged.  Buffers are modelled as byte lists. -/
def mockBackgroundRemoval (imageBuffer : List Nat) : List Nat := imageBuffer

/-- Observable outcome of one removeBackground call: the returned bytes or
the propagated error, whether a provider HTTP request was issued, and
whether the mock produced the returned bytes. -/
structure RbCall where
  output : Except String (List Nat)
  providerInvoked : Bool
  usedMock : Bool
deriving Repr

/-- BackgroundRemovalService.removeBackground as written in
libs/background-removal.ts.  providerResult is the outcome of the provider
HTTP call when one is issued.  The switch selects remove.bg or clipdrop
(each throwing when its key is missing), the default arm uses the mock only
in development without an api key, and the surrounding catch falls back to
the mock exactly when NODE_ENV is development. -/
def removeBackgroundLib (cfg : RbConfig) (env : RbEnv)
    (providerResult : Except String (List Nat)) (imageBuffer : List Nat) : RbCall :=
  let attempt : Except String (List Nat) × Bool × Bool :=
    if cfg.service = "remove.bg" then
      if cfg.apiKeyPresent then (providerResult, true, false)
      else (Except.error "Remove.bg API key is not configured", false, false)
    else if cfg.service = "clipdrop" then
      if env.clipdropKeyPresent then (providerResult, true, false)
      else (Except.error "Clipdrop API key is not configured", false, false)
    else
      if env.nodeEnv = "development" ∧ ¬ cfg.apiKeyPresent then
        (Except.ok (mockBackgroundRemoval imageBuffer), false, true)
      else
        (Except.error ("Unsupported background removal service: " ++ cfg.service),
          false, false)
  match attempt with
  | (Except.ok out, inv, m) => { output := Except.ok out, providerInvoked := inv, usedMock := m }
  | (Except.error e, inv, _) =>
    if env.nodeEnv = "development" then
      { output := Except.ok (mockBackgroundRemoval imageBuffer)
        providerInvoked := inv, usedMock := true }
    else
      { output := Except.error e, providerInvoked := inv, usedMock := false }

/-- BackgroundRemovalService.removeBackground as written in
src/unnamed/part_000, lines 143 through 176: the method body begins with a
line commented TODO Remove this after testing followed by an unconditional
early return of mockBackgroundRemoval, so the switch over providers below
it is unreachable and every call returns the mock result regardless of
NODE_ENV, service selection, api keys, or the provider outcome. -/
def removeBackgroundPart000 (cfg : RbConfig) (env : RbEnv)
    (providerResult : Except String (List Nat)) (imageBuffer : List Nat) : RbCall :=
  { output := Except.ok (mockBackgroundRemoval imageBuffer)
    providerInvoked := false
    usedMock := true }

/-- BackgroundRemovalService.validateConfig: the list of configuration
errors; valid means the list is empty.  production is whether NODE_ENV
equals production. -/
def validateConfig (cfg : RbConfig) (production : Bool) : List String :=
  (if production ∧ ¬ cfg.apiKeyPresent then
    [cfg.service ++ " API key is required in production"] else []) ++
  (if cfg.service = "remove.bg" ∨ cfg.service = "clipdrop" then []
   else ["Unsupported service: " ++ cfg.service])

/-! Status writes issued against the processed_images row.  Every update the
code performs is a partial record write: status is always written, the other
three payload fields are written only when listed in the update object. -/

/-- One database update of a job row: the status always written, and for
each optional column either no write or a write of the given value. -/
structure StatusUpdate where
  status : Status
  set_processed_url : Option (Option String)
  set_error_message : Option (Option String)
  set_processing_time_ms : Option (Option Nat)
deriving DecidableEq, Repr

/-- Apply one update to a row, also touching updated_at as every update in
the source does. -/
def applyUpdate (job : Job) (u : StatusUpdate) (now : Nat) : Job :=
  { job with
    status := u.status
    processed_url := u.set_processed_url.getD job.processed_url
    error_message := u.set_error_message.getD job.error_message
    processing_time_ms := u.set_processing_time_ms.getD job.processing_time_ms
    updated_at := now }

/-- Apply a trace of updates in order. -/
def runUpdates (job : Job) (updates : List StatusUpdate) (now : Nat) : Job :=
  updates.foldl (fun j u => applyUpdate j u now) job

/-- An update object containing only the status field set to processing, as
written both by processImageInBackground step 1 and by
ImageProcessor.processImage on entry and by the reprocess route. -/
def processingUpdate : StatusUpdate :=
  { status := Status.processing
    set_processed_url := none
    set_error_message := none
    set_processing_time_ms := none }

/-- The completed update of ImageProcessor.processImage step 6 and of the
route handlers: status completed, processed_url and processing_time_ms set. -/
def completedUpdate (url : String) (t : Nat) : StatusUpdate :=
  { status := Status.completed
    set_processed_url := some (some url)
    set_error_message := none
    set_processing_time_ms := some (some t) }

/-- The failed update of ImageProcessor.processImage's catch: status failed,
error_message and processing_time_ms set. -/
def failedUpdateTimed (e : String) (t : Nat) : StatusUpdate :=
  { status := Status.failed
    set_processed_url := none
    set_error_message := some (some e)
    set_processing_time_ms := some (some t) }

/-- The failed update written by the catch blocks of the route handlers:
status failed and error_message set, with no processing_time_ms column. -/
def failedUpdatePlain (e : String) : StatusUpdate :=
  { status := Status.failed
    set_processed_url := none
    set_error_message := some (some e)
    set_processing_time_ms := none }

/-! ImageProcessor.processImage and the background worker of the primary
upload route (src/app/api/images/upload/route.ts, first version). -/

/-- Outcomes of the external calls made by the pipeline phases of
ImageProcessor.processImage, in the order the method awaits them: sharp
resize, removeBackgroundFn, sharp flop, sharp format conversion, and the
storage upload of step 5 which on success yields the public URL. -/
structure PipelineOracle where
  resizeOutcome : Except String (List Nat)
  removeBgOutcome : Except String (List Nat)
  flipOutcome : Except String (List Nat)
  convertOutcome : Except String (List Nat)
  uploadOutcome : Except String String
deriving Repr

/-- The first failing phase aborts the chain, otherwise the storage upload's
public URL comes out, exactly as the successive awaits of processImage. -/
def pipelinePhases (o : PipelineOracle) : Except String String :=
  match o.resizeOutcome with
  | Except.error e => Except.error e
  | Except.ok _ =>
    match o.removeBgOutcome with
    | Except.error e => Except.error e
    | Except.ok _ =>
      match o.flipOutcome with
      | Except.error e => Except.error e
      | Except.ok _ =>
        match o.convertOutcome with
        | Except.error e => Except.error e
        | Except.ok _ => o.uploadOutcome

/-- The value ImageProcessor.processImage resolves with on success: only
processedUrl and processingTimeMs. -/
structure ProcessImageValue where
  processedUrl : String
  processingTimeMs : Nat
deriving DecidableEq, Repr

/-- ImageProcessor.processImage (libs/image-processor.ts): writes status
processing on entry, runs the phases, then writes either the completed
update with the processed URL and elapsed time, or the failed update with
the error message and elapsed time before rethrowing.  Returns the trace of
updates it wrote together with its result; elapsed is the wall-clock time
the method measures. -/
def processImage (o : PipelineOracle) (elapsed : Nat) :
    List StatusUpdate × Except String ProcessImageValue :=
  match pipelinePhases o with
  | Except.ok url =>
    ([processingUpdate, completedUpdate url elapsed],
     Except.ok { processedUrl := url, processingTimeMs := elapsed })
  | Except.error e =>
    ([processingUpdate, failedUpdateTimed e elapsed], Except.error e)

/-- The fields of a processing result that the primary upload route's
step 3 expects: processingResult.uploadData with filePath and contentType. -/
structure UploadData where
  storagePath : String
  contentType : String
deriving DecidableEq, Repr

/-- The property read processingResult.uploadData performed by
processImageInBackground: the object processImage actually returns has no
uploadData property, so in JavaScript the read yields undefined, modelled
as none. -/
def uploadDataField (r : ProcessImageValue) : Option UploadData := none

/-- The TypeError raised when step 3 then reads filePath on undefined. -/
def uploadDataTypeError : String :=
  "Cannot read properties of undefined (reading filePath)"

/-- processImageInBackground of the primary upload route: step 1 writes the
processing update itself, step 2 awaits ImageProcessor.processImage (which
writes its own updates), step 3 reads processingResult.uploadData.filePath
to upload the processed buffer.  routeUploadOutcome is the outcome of that
storage upload were it reached.  Any exception lands in the catch block
which writes the plain failed update.  The function returns the full trace
of updates written against the job row. -/
def processImageInBackground (o : PipelineOracle) (routeUploadOutcome : Except String String)
    (elapsed : Nat) : List StatusUpdate :=
  let step2 := processImage o elapsed
  match step2.2 with
  | Except.ok res =>
    match uploadDataField res with
    | some _ =>
      match routeUploadOutcome with
      | Except.ok url2 =>
        processingUpdate :: step2.1 ++ [completedUpdate url2 res.processingTimeMs]
      | Except.error e =>
        processingUpdate :: step2.1 ++ [failedUpdatePlain ("Upload failed: " ++ e)]
    | none =>
      processingUpdate :: step2.1 ++ [failedUpdatePlain uploadDataTypeError]
  | Except.error e =>
    processingUpdate :: step2.1 ++ [failedUpdatePlain e]

/-! Reprocess route: src/app/api/images/[id]/process/route.ts POST. -/

/-- Responses of the reprocess route that matter to the claims. -/
inductive ProcessResponse
  | badRequest
  | notFound
  | alreadyCompleted
  | alreadyProcessing
  | configError
  | serverError (msg : String)
deriving DecidableEq, Repr

/-- The method access imageProcessor.processImageBuffer performed by
processImageSynchronously: no ImageProcessor version defines a method of
that name, so the call raises a TypeError. -/
def processImageBufferMissing : String :=
  "imageProcessor.processImageBuffer is not a function"

/-- POST of the reprocess route.  After the not-found and terminal-status
guards and the configuration check, it writes the processing update, fetches
the original bytes (fetchOk), and calls processImageSynchronously, whose
call of the nonexistent processImageBuffer method throws; the inner catch
writes the timed failed update and rethrows, and the outer catch writes the
plain failed update and answers 500.  The returned trace lists the updates
written against the row. -/
def processPOST (record : Option Job) (cfg : RbConfig) (production : Bool)
    (fetchOk : Bool) (elapsed : Nat) : ProcessResponse × List StatusUpdate :=
  match record with
  | none => (ProcessResponse.notFound, [])
  | some job =>
    if job.status = Status.completed then (ProcessResponse.alreadyCompleted, [])
    else if job.status = Status.processing then (ProcessResponse.alreadyProcessing, [])
    else if ¬ (validateConfig cfg production).isEmpty then (ProcessResponse.configError, [])
    else if ¬ fetchOk then
      (ProcessResponse.serverError "Failed to fetch image from storage",
       [processingUpdate, failedUpdatePlain "Failed to fetch image from storage"])
    else
      (ProcessResponse.serverError processImageBufferMissing,
       [processingUpdate,
        failedUpdateTimed processImageBufferMissing elapsed,
        failedUpdatePlain processImageBufferMissing])

/-! Persistent state: the processed_images table and the two storage
buckets, each bucket a list of stored object paths. -/

structure SysState where
  jobs : List Job
  originalBlobs : List String
  processedBlobs : List String
deriving DecidableEq, Repr

/-! Upload route: src/app/api/images/upload/route.ts. -/

/-- The parts of the multipart request the upload route reads: whether a
file part is present, its File fields, and the sessionId form field (none
when absent; the empty string is possible and falsy). -/
structure UploadRequest where
  filePresent : Bool
  file : FileInfo
  sessionIdField : Option String
deriving DecidableEq, Repr

/-- The expression formData.get sessionId as string or uuidv4: a missing or
empty field is falsy and replaced by a fresh UUID. -/
def sessionIdOf (field : Option String) (fresh : String) : String :=
  match field with
  | none => fresh
  | some s => if s = "" then fresh else s

/-- External outcomes and generated values consumed by the upload POST:
the production flag and provider config for validateConfig, the fresh UUID
used when the sessionId field is falsy, the metadata sharp reads, the
storage path and public URL of the original upload together with its
success flag, the database insert success flag, and the new row id and
clock. -/
structure UploadEnv where
  production : Bool
  rbConfig : RbConfig
  freshUuid : String
  metaWidth : Nat
  metaHeight : Nat
  originalPath : String
  originalUrl : String
  storageUploadOk : Bool
  insertOk : Bool
  newId : Nat
  now : Nat
deriving DecidableEq, Repr

/-- Responses of the two upload POST versions.  uploadOk is the immediate
response of the primary version; inlineOk and inlineFailed are the
responses of the inline debugging version, which answers only after
processing inline. -/
inductive UploadResponse
  | badRequest (msg : String)
  | serverError (msg : String)
  | uploadOk (id : Nat) (status : Status) (originalUrl : String) (sessionId : String)
  | inlineOk (id : Nat) (status : Status) (originalUrl : String)
      (processedUrl : String) (sessionId : String)
  | inlineFailed (id : Nat) (status : Status) (originalUrl : String)
      (sessionId : String) (errorMsg : String)
deriving DecidableEq, Repr

/-- The status field carried by a success response of either upload
version, none for the error responses. -/
def uploadResponseStatus : UploadResponse → Option Status
  | UploadResponse.uploadOk _ st _ _ => some st
  | UploadResponse.inlineOk _ st _ _ _ => some st
  | UploadResponse.inlineFailed _ st _ _ _ => some st
  | _ => none

/-- The row the upload POST inserts: status pending, processed_url and
error_message null, metadata and session captured. -/
def insertedJob (req : UploadRequest) (env : UploadEnv) : Job :=
  { id := env.newId
    original_filename := req.file.name
    original_url := env.originalUrl
    processed_url := none
    status := Status.pending
    error_message := none
    file_size := req.file.size
    dim_width := env.metaWidth
    dim_height := env.metaHeight
    processing_time_ms := none
    user_session_id := some (sessionIdOf req.sessionIdField env.freshUuid)
    created_at := env.now
    updated_at := env.now }

/-- POST of the primary upload route version: file presence check, file
validation, service configuration validation, storage upload of the
original (with compensating no-op on failure), database insert (with
compensating blob removal on failure), then the detached background worker
is started and the immediate response carries the id, status pending, the
original URL and the sessionId.  The background worker's writes are
modelled separately by processImageInBackground. -/
def uploadPOST (req : UploadRequest) (env : UploadEnv) (s : SysState) :
    UploadResponse × SysState :=
  let sessionId := sessionIdOf req.sessionIdField env.freshUuid
  if ¬ req.filePresent then (UploadResponse.badRequest "No file provided", s)
  else
    let v := validateFile req.file
    if ¬ v.valid then (UploadResponse.badRequest (v.error.getD ""), s)
    else if ¬ (validateConfig env.rbConfig env.production).isEmpty then
      (UploadResponse.serverError "Service configuration error", s)
    else if ¬ env.storageUploadOk then
      (UploadResponse.serverError "Failed to upload original image", s)
    else
      let s1 : SysState := { s with originalBlobs := s.originalBlobs ++ [env.originalPath] }
      if ¬ env.insertOk then
        (UploadResponse.serverError "Failed to create image record",
         { s1 with originalBlobs := s1.originalBlobs.filter (fun p => p ≠ env.originalPath) })
      else
        (UploadResponse.uploadOk env.newId Status.pending env.originalUrl sessionId,
         { s1 with jobs := s1.jobs ++ [insertedJob req env] })

/-- External outcomes consumed by the inline processing block of the second
upload POST version: the processing status write, the storage upload of the
buffer into the processed bucket with its path and public URL, and the
completed status write whose failure the code ignores. -/
structure InlineEnv where
  procUpdateOk : Bool
  processedPath : String
  processedUrl : String
  processedUploadOk : Bool
  completedUpdateOk : Bool
deriving DecidableEq, Repr

/-- POST of the inline debugging upload route version (second version in
upload/route.ts): identical validation and creation steps (its inline
metadata stub records width and height 0), then processing inline in the
handler: write processing, upload the original buffer into the processed
bucket, write completed (ignoring a failure of that write) and answer with
status completed and the processed URL; any inline failure is caught,
written as the plain failed update and answered with status failed.  The
answer is produced only after processing, and its status is never pending. -/
def uploadPOSTInline (req : UploadRequest) (env : UploadEnv) (ienv : InlineEnv)
    (s : SysState) : UploadResponse × SysState :=
  let sessionId := sessionIdOf req.sessionIdField env.freshUuid
  if ¬ req.filePresent then (UploadResponse.badRequest "No file provided", s)
  else
    let v := validateFile req.file
    if ¬ v.valid then (UploadResponse.badRequest (v.error.getD ""), s)
    else if ¬ env.storageUploadOk then
      (UploadResponse.serverError "Failed to upload original image", s)
    else
      let s1 : SysState := { s with originalBlobs := s.originalBlobs ++ [env.originalPath] }
      if ¬ env.insertOk then
        (UploadResponse.serverError "Failed to create image record",
         { s1 with originalBlobs := s1.originalBlobs.filter (fun p => p ≠ env.originalPath) })
      else
        let job := insertedJob req { env with metaWidth := 0, metaHeight := 0 }
        let s2 : SysState := { s1 with jobs := s1.jobs ++ [job] }
        if ¬ ienv.procUpdateOk then
          let failMsg := "Failed to update status"
          (UploadResponse.inlineFailed env.newId Status.failed env.originalUrl sessionId failMsg,
           { s2 with jobs := s2.jobs.map (fun (j : Job) =>
              if j.id == env.newId then applyUpdate j (failedUpdatePlain failMsg) env.now else j) })
        else
          let afterProc := { s2 with jobs := s2.jobs.map (fun (j : Job) =>
            if j.id == env.newId then applyUpdate j processingUpdate env.now else j) }
          if ¬ ienv.processedUploadOk then
            let failMsg := "Upload failed"
            (UploadResponse.inlineFailed env.newId Status.failed env.originalUrl sessionId failMsg,
             { afterProc with jobs := afterProc.jobs.map (fun (j : Job) =>
                if j.id == env.newId then applyUpdate j (failedUpdatePlain failMsg) env.now else j) })
          else
            let withBlob := { afterProc with
              processedBlobs := afterProc.processedBlobs ++ [ienv.processedPath] }
            let final := if ienv.completedUpdateOk then
                { withBlob with jobs := withBlob.jobs.map (fun (j : Job) =>
                  if j.id == env.newId then
                    applyUpdate j (completedUpdate ienv.processedUrl 0) env.now else j) }
              else withBlob
            (UploadResponse.inlineOk env.newId Status.completed env.originalUrl
              ienv.processedUrl sessionId, final)

/-! Status, delete and session routes. -/

/-- The projection both read routes answer with (GET /images/id and the
session route of src/unnamed/part_009 agree on these fields). -/
structure JobView where
  id : Nat
  status : Status
  originalFilename : String
  originalUrl : String
  processedUrl : Option String
  errorMsg : Option String
  processingTimeMs : Option Nat
  width : Nat
  height : Nat
  fileSize : Nat
  createdAt : Nat
  updatedAt : Nat
deriving DecidableEq, Repr

/-- Field-for-field projection of a row into the response shape. -/
def toView (j : Job) : JobView :=
  { id := j.id
    status := j.status
    originalFilename := j.original_filename
    originalUrl := j.original_url
    processedUrl := j.processed_url
    errorMsg := j.error_message
    processingTimeMs := j.processing_time_ms
    width := j.dim_width
    height := j.dim_height
    fileSize := j.file_size
    createdAt := j.created_at
    updatedAt := j.updated_at }

/-- The single-row lookup select star where id equals the given id. -/
def findJob (id : Nat) (s : SysState) : Option Job :=
  s.jobs.find? (fun (j : Job) => j.id == id)

/-- Responses of GET /images/id. -/
inductive StatusResponse
  | badRequest
  | notFound
  | ok (view : JobView)
deriving DecidableEq, Repr

/-- GET of src/app/api/images/[id]/route.ts: single-row lookup, 404 when
absent, otherwise the projection of the row. -/
def statusGET (id : Nat) (s : SysState) : StatusResponse :=
  match findJob id s with
  | none => StatusResponse.notFound
  | some j => StatusResponse.ok (toView j)

/-- Responses of DELETE /images/id. -/
inductive DeleteResponse
  | badRequest
  | notFound
  | serverError
  | deleted (id : Nat)
deriving DecidableEq, Repr

/-- The expression url.split slash .pop of the DELETE route, with the falsy
guard: the last path segment, or none when it is empty. -/
def popSegment (url : String) : Option String :=
  match (url.splitOn "/").getLast? with
  | none => none
  | some p => if p = "" then none else some p

/-- The best-effort storage removal: attempted only for a truthy path, and
a failed attempt (ok false) leaves the bucket unchanged; either way no
error escapes. -/
def removeIfOk (ok : Bool) (seg : Option String) (blobs : List String) : List String :=
  match seg with
  | some p => if ok then blobs.filter (fun q => q ≠ p) else blobs
  | none => blobs

/-- DELETE of src/app/api/images/[id]/route.ts: single-row lookup (404 when
absent, no side effects), database delete first (500 on failure, storage
untouched), then best-effort removal of the original and processed objects;
origRemoveOk and procRemoveOk are the storage outcomes, and a failed or
skipped removal leaves the object in place without changing the response. -/
def deleteDELETE (id : Nat) (dbDeleteOk origRemoveOk procRemoveOk : Bool)
    (s : SysState) : DeleteResponse × SysState :=
  match findJob id s with
  | none => (DeleteResponse.notFound, s)
  | some job =>
    if ¬ dbDeleteOk then (DeleteResponse.serverError, s)
    else
      (DeleteResponse.deleted id,
       { jobs := s.jobs.filter (fun (j : Job) => ! (j.id == id))
         originalBlobs := removeIfOk origRemoveOk (popSegment job.original_url) s.originalBlobs
         processedBlobs :=
           removeIfOk procRemoveOk (job.processed_url.bind popSegment) s.processedBlobs })

/-! Session route: src/unnamed/part_009 GET /images/session/sessionId. -/

/-- Responses of the session route. -/
inductive SessionResponse
  | badRequest
  | serverError
  | ok (sessionId : String) (images : List JobView) (total : Nat)
deriving DecidableEq, Repr

/-- The descending created_at ordering requested by the query order
created_at ascending false. -/
def newestFirst (a b : Job) : Prop := b.created_at ≤ a.created_at

instance : DecidableRel newestFirst := fun a b =>
  inferInstanceAs (Decidable (b.created_at ≤ a.created_at))

instance : IsTotal Job newestFirst :=
  ⟨fun a b => Nat.le_total b.created_at a.created_at⟩

instance : IsTrans Job newestFirst :=
  ⟨fun _ _ _ h h2 => Nat.le_trans h2 h⟩

/-- The rows the session query answers: the rows of the session, newest
first by created_at, projected for the client. -/
def sessionImages (sessionId : String) (s : SysState) : List JobView :=
  (((s.jobs.filter (fun (j : Job) => j.user_session_id == some sessionId))).insertionSort
    newestFirst).map toView

/-- GET of the session route: falsy-session 400, database failure 500,
otherwise the transformed rows with total set to the length of the returned
array; an empty result is an ordinary success. -/
def sessionGET (sessionId : String) (queryOk : Bool) (s : SysState) : SessionResponse :=
  if sessionId = "" then SessionResponse.badRequest
  else if ¬ queryOk then SessionResponse.serverError
  else
    let images := sessionImages sessionId s
    SessionResponse.ok sessionId images images.length

/-! Concrete fixtures used by the closed evaluation theorems and by the
witnesses. -/

/-- A freshly created pending row, as the upload route inserts it. -/
def demoJob : Job :=
  { id := 7
    original_filename := "cat.jpg"
    original_url := "https://blob.example/original/1-a.jpg"
    processed_url := none
    status := Status.pending
    error_message := none
    file_size := 1000
    dim_width := 500
    dim_height := 500
    processing_time_ms := none
    user_session_id := some "s1"
    created_at := 100
    updated_at := 100 }

/-- The same row after the pipeline has marked it failed. -/
def failedJob : Job :=
  { demoJob with status := Status.failed, error_message := some "boom" }

/-- The same row after the pipeline has marked it completed. -/
def completedJob : Job :=
  { demoJob with
    status := Status.completed
    processed_url := some "https://blob.example/processed/1-b.png"
    processing_time_ms := some 1234 }

/-- A pipeline run in which every external call succeeds. -/
def allOkOracle : PipelineOracle :=
  { resizeOutcome := Except.ok [1]
    removeBgOutcome := Except.ok [2]
    flipOutcome := Except.ok [3]
    convertOutcome := Except.ok [4]
    uploadOutcome := Except.ok "https://blob.example/processed/1-b.png" }

/-- remove.bg selected with its api key configured. -/
def prodCfg : RbConfig := { service := "remove.bg", apiKeyPresent := true }

/-- A production process environment. -/
def prodEnv : RbEnv := { nodeEnv := "production", clipdropKeyPresent := false }

/-! Theorems. -/

/-- C1.  The claimed invariant processedUrl non-null iff status completed
fails on the code: in a fully successful run of the primary upload route's
background worker, ImageProcessor.processImage writes the completed update
with the processed URL, then the worker's step 3 reads the nonexistent
uploadData property of the returned value, the resulting TypeError reaches
the catch block, and the catch writes status failed without clearing
processed_url, leaving a failed row whose processed_url is non-null. -/
theorem upload_worker_breaks_url_status_invariant :
    (runUpdates demoJob
        (processImageInBackground allOkOracle (Except.ok "unused") 120) 130).status
        = Status.failed ∧
    (runUpdates demoJob
        (processImageInBackground allOkOracle (Except.ok "unused") 120) 130).processed_url
        = some "https://blob.example/processed/1-b.png" := by
  constructor <;> rfl

/-- C4.  The claimed single processing write and single terminal write fail
on the code: a fully successful run of the primary upload route's
background worker writes status processing twice (once in the worker's
step 1 and once inside ImageProcessor.processImage), then completed, then
failed after the TypeError of step 3 — two processing writes and two
terminal writes in one run. -/
theorem upload_worker_status_write_trace :
    (processImageInBackground allOkOracle (Except.ok "unused") 120).map StatusUpdate.status
      = [Status.processing, Status.processing, Status.completed, Status.failed] := by
  rfl

/-- C6.  The removeBackground of src/unnamed/part_000 contradicts the
claimed fallback policy: in production mode with remove.bg selected and its
api key configured, it never issues the provider request and returns the
mock (the input bytes unchanged) even when the provider outcome would have
been an error, while the libs/background-removal.ts version of the same
method invokes the provider and propagates the failure. -/
theorem part000_removeBackground_always_mocks :
    (removeBackgroundPart000 prodCfg prodEnv
        (Except.error "Remove.bg API error: 500") [9, 8, 7]).output = Except.ok [9, 8, 7] ∧
    (removeBackgroundPart000 prodCfg prodEnv
        (Except.error "Remove.bg API error: 500") [9, 8, 7]).providerInvoked = false ∧
    (removeBackgroundPart000 prodCfg prodEnv
        (Except.error "Remove.bg API error: 500") [9, 8, 7]).usedMock = true ∧
    (removeBackgroundLib prodCfg prodEnv
        (Except.error "Remove.bg API error: 500") [9, 8, 7]).output
      = Except.error "Remove.bg API error: 500" ∧
    (removeBackgroundLib prodCfg prodEnv
        (Except.error "Remove.bg API error: 500") [9, 8, 7]).providerInvoked = true := by
  refine ⟨rfl, rfl, rfl, ?_, ?_⟩ <;>
    simp [removeBackgroundLib, prodCfg, prodEnv, mockBackgroundRemoval]

/-- C2 counterexample.  Status transitions are not monotonic as claimed:
the reprocess route accepts a job already in the terminal state failed,
and its first database write puts the job back to processing, so a poller
that observed failed can later observe processing for the same id. -/
theorem reprocess_returns_failed_job_to_processing :
    failedJob.status = Status.failed ∧
    ((processPOST (some failedJob) prodCfg true true 44).2.map StatusUpdate.status).head?
      = some Status.processing ∧
    (applyUpdate failedJob processingUpdate 150).status = Status.processing := by
  refine ⟨rfl, ?_, rfl⟩
  simp [processPOST, failedJob, demoJob, validateConfig, prodCfg, processingUpdate]

/-- C2 amended.  The monotonicity that does hold on the code: no status
write of any operation ever carries pending, and the reprocess route issues
no write at all for a job already completed (its completed guard answers
early), so a completed observation is never followed by pending or
processing for that id; only a failed job can be taken back to processing,
and only by the explicit reprocess route. -/
theorem status_writes_never_pending_and_completed_guarded
    (o : PipelineOracle) (ru : Except String String) (t : Nat)
    (record : Option Job) (cfg : RbConfig) (production fetchOk : Bool) (t2 : Nat) :
    Status.pending ∉ (processImageInBackground o ru t).map StatusUpdate.status ∧
    Status.pending ∉ ((processPOST record cfg production fetchOk t2).2.map StatusUpdate.status) ∧
    (∀ job, record = some job → job.status = Status.completed →
      (processPOST record cfg production fetchOk t2).2 = []) := by
  refine ⟨?_, ?_, ?_⟩
  · unfold processImageInBackground processImage
    cases hp : pipelinePhases o with
    | ok url =>
      cases hu : uploadDataField { processedUrl := url, processingTimeMs := t } with
      | some d =>
        cases ru <;>
          simp [processingUpdate, completedUpdate, failedUpdatePlain, hu]
      | none =>
        simp [processingUpdate, completedUpdate, failedUpdatePlain, hu]
    | error e =>
      simp [processingUpdate, failedUpdateTimed, failedUpdatePlain]
  · unfold processPOST
    cases record with
    | none => simp
    | some job =>
      by_cases h1 : job.status = Status.completed
      · simp [h1]
      · by_cases h2 : job.status = Status.processing
        · simp [h1, h2]
        · by_cases h3 : (validateConfig cfg production).isEmpty
          · by_cases h4 : fetchOk <;>
              simp [h1, h2, h3, h4, processingUpdate, failedUpdatePlain, failedUpdateTimed]
          · simp [h1, h2, h3]
  · intro job hrec hcomp
    subst hrec
    simp [processPOST, hcomp]

/-- C2 amended witness at concrete inputs. -/
theorem status_writes_never_pending_witness :
    Status.pending ∉ (processImageInBackground allOkOracle (Except.ok "u") 1).map
      StatusUpdate.status ∧
    (processPOST (some completedJob) prodCfg true true 1).2 = [] :=
  ⟨(status_writes_never_pending_and_completed_guarded allOkOracle (Except.ok "u") 1
      (some completedJob) prodCfg true true 1).1,
   (status_writes_never_pending_and_completed_guarded allOkOracle (Except.ok "u") 1
      (some completedJob) prodCfg true true 1).2.2 completedJob rfl rfl⟩

/-- An empty store and table. -/
def emptyState : SysState := { jobs := [], originalBlobs := [], processedBlobs := [] }

/-- A well-formed upload request carrying a small JPEG and session s1. -/
def goodReq : UploadRequest :=
  { filePresent := true
    file := { name := "cat.jpg", size := 1000, mime := "image/jpeg" }
    sessionIdField := some "s1" }

/-- An upload environment in which every external call succeeds. -/
def goodUploadEnv : UploadEnv :=
  { production := true
    rbConfig := prodCfg
    freshUuid := "uuid-1"
    metaWidth := 500
    metaHeight := 500
    originalPath := "1-a.jpg"
    originalUrl := "https://blob.example/original/1-a.jpg"
    storageUploadOk := true
    insertOk := true
    newId := 7
    now := 100 }

/-- Inline-processing outcomes in which every external call succeeds. -/
def goodInline : InlineEnv :=
  { procUpdateOk := true
    processedPath := "2-b.png"
    processedUrl := "https://blob.example/processed/2-b.png"
    processedUploadOk := true
    completedUpdateOk := true }

/-- C8 counterexample.  The claim fails on the inline debugging version of
the upload POST (the second version in upload/route.ts, whose success
response is built at its lines 440 through 447): for a perfectly valid
upload request its success response carries status completed, not the
claimed pending. -/
theorem inline_upload_success_response_not_pending :
    uploadResponseStatus (uploadPOSTInline goodReq goodUploadEnv goodInline emptyState).1
      = some Status.completed ∧
    Status.completed ≠ Status.pending := by
  constructor
  · rfl
  · decide

/-- C8 amended.  The primary (background-dispatch) upload POST answers a
valid request with the created id, status exactly pending, the original
URL and the sessionId; the inline debugging version instead answers only
after processing, with status completed (and the processed URL) on
success — never pending. -/
theorem upload_success_response_statuses
    (req : UploadRequest) (env : UploadEnv) (ienv : InlineEnv) (s : SysState)
    (hfile : req.filePresent = true)
    (hvalid : (validateFile req.file).valid = true)
    (hcfg : validateConfig env.rbConfig env.production = [])
    (hst : env.storageUploadOk = true)
    (hins : env.insertOk = true)
    (hproc : ienv.procUpdateOk = true)
    (hup : ienv.processedUploadOk = true) :
    (uploadPOST req env s).1 =
      UploadResponse.uploadOk env.newId Status.pending env.originalUrl
        (sessionIdOf req.sessionIdField env.freshUuid) ∧
    (uploadPOSTInline req env ienv s).1 =
      UploadResponse.inlineOk env.newId Status.completed env.originalUrl
        ienv.processedUrl (sessionIdOf req.sessionIdField env.freshUuid) := by
  constructor
  · simp [uploadPOST, hfile, hvalid, hcfg, hst, hins]
  · simp [uploadPOSTInline, hfile, hvalid, hst, hins, hproc, hup]

/-- C8 amended witness at concrete inputs. -/
theorem upload_success_response_statuses_witness :
    (uploadPOST goodReq goodUploadEnv emptyState).1 =
      UploadResponse.uploadOk 7 Status.pending "https://blob.example/original/1-a.jpg" "s1" ∧
    (uploadPOSTInline goodReq goodUploadEnv goodInline emptyState).1 =
      UploadResponse.inlineOk 7 Status.completed "https://blob.example/original/1-a.jpg"
        "https://blob.example/processed/2-b.png" "s1" :=
  upload_success_response_statuses goodReq goodUploadEnv goodInline emptyState
    rfl rfl rfl rfl rfl rfl rfl

/-- C9.  When the sessionId form field is absent or empty, the upload POST
substitutes the freshly generated UUID, stores it on the inserted row and
returns it in the success response; it never rejects for a missing
sessionId. -/
theorem upload_generates_fresh_session_id
    (req : UploadRequest) (env : UploadEnv) (s : SysState)
    (hfile : req.filePresent = true)
    (hsid : req.sessionIdField = none ∨ req.sessionIdField = some "")
    (hvalid : (validateFile req.file).valid = true)
    (hcfg : validateConfig env.rbConfig env.production = [])
    (hst : env.storageUploadOk = true)
    (hins : env.insertOk = true) :
    (uploadPOST req env s).1 =
      UploadResponse.uploadOk env.newId Status.pending env.originalUrl env.freshUuid ∧
    (uploadPOST req env s).2.jobs = s.jobs ++ [insertedJob req env] ∧
    (insertedJob req env).user_session_id = some env.freshUuid := by
  have hses : sessionIdOf req.sessionIdField env.freshUuid = env.freshUuid := by
    rcases hsid with h | h <;> simp [sessionIdOf, h]
  refine ⟨?_, ?_, ?_⟩
  · simp [uploadPOST, hfile, hvalid, hcfg, hst, hins, hses]
  · simp [uploadPOST, hfile, hvalid, hcfg, hst, hins]
  · simp [insertedJob, hses]

/-- A well-formed upload request with no sessionId field. -/
def noSessionReq : UploadRequest := { goodReq with sessionIdField := none }

/-- C9 witness at concrete inputs. -/
theorem upload_generates_fresh_session_id_witness :
    (uploadPOST noSessionReq goodUploadEnv emptyState).1 =
      UploadResponse.uploadOk 7 Status.pending
        "https://blob.example/original/1-a.jpg" "uuid-1" ∧
    (uploadPOST noSessionReq goodUploadEnv emptyState).2.jobs =
      [] ++ [insertedJob noSessionReq goodUploadEnv] ∧
    (insertedJob noSessionReq goodUploadEnv).user_session_id = some "uuid-1" :=
  upload_generates_fresh_session_id noSessionReq goodUploadEnv emptyState
    rfl (Or.inl rfl) rfl rfl rfl rfl

/-- C5.  An upload whose file is oversized or of a disallowed MIME type is
answered with the 400 validation response before any persistent state is
touched: the store and the table come back unchanged, so a later
listBySession answers exactly as before the attempt. -/
theorem upload_rejects_invalid_file_without_state
    (req : UploadRequest) (env : UploadEnv) (s : SysState)
    (hfile : req.filePresent = true)
    (hbad : maxFileSize < req.file.size ∨ req.file.mime ∉ allowedFormats) :
    uploadPOST req env s =
      (UploadResponse.badRequest ((validateFile req.file).error.getD ""), s) ∧
    (∀ sid qok, sessionGET sid qok (uploadPOST req env s).2 = sessionGET sid qok s) := by
  have hv : (validateFile req.file).valid = false := by
    by_cases hsz : maxFileSize < req.file.size
    · simp [validateFile, hsz]
    · rcases hbad with hb | hb
      · exact absurd hb hsz
      · simp [validateFile, hsz, hb]
  have h1 : uploadPOST req env s =
      (UploadResponse.badRequest ((validateFile req.file).error.getD ""), s) := by
    simp [uploadPOST, hfile, hv]
  exact ⟨h1, fun sid qok => by rw [h1]⟩

/-- A 50-megabyte-plus JPEG upload request. -/
def oversizedReq : UploadRequest :=
  { filePresent := true
    file := { name := "big.jpg", size := 52428801, mime := "image/jpeg" }
    sessionIdField := some "s1" }

/-- C5 witness at concrete inputs. -/
theorem upload_rejects_invalid_file_witness :
    uploadPOST oversizedReq goodUploadEnv emptyState =
      (UploadResponse.badRequest
        ((validateFile oversizedReq.file).error.getD ""), emptyState) ∧
    sessionGET "s1" true (uploadPOST oversizedReq goodUploadEnv emptyState).2 =
      sessionGET "s1" true emptyState :=
  ⟨(upload_rejects_invalid_file_without_state oversizedReq goodUploadEnv emptyState
      rfl (Or.inl (by decide))).1,
   (upload_rejects_invalid_file_without_state oversizedReq goodUploadEnv emptyState
      rfl (Or.inl (by decide))).2 "s1" true⟩

/-- After the database delete, no row with the deleted id survives the
table, whatever predicate shape find? is given. -/
theorem find_filtered_out (id : Nat) (l : List Job) :
    (l.filter (fun (j : Job) => ! (j.id == id))).find? (fun (j : Job) => j.id == id)
      = none := by
  apply List.find?_eq_none.mpr
  intro x hx
  have hmem := List.mem_filter.mp hx
  simpa using hmem.2

/-- C7.  delete on an unknown id answers not-found with no side effects;
delete on an existing id with a successful database delete answers success
and removes the row — for every combination of blob-removal outcomes — so
both statusGET and the session listing no longer show the id. -/
theorem delete_not_found_and_removal
    (id : Nat) (dbOk o1 o2 : Bool) (s : SysState) :
    (findJob id s = none → deleteDELETE id dbOk o1 o2 s = (DeleteResponse.notFound, s)) ∧
    (∀ job, findJob id s = some job → dbOk = true →
      (deleteDELETE id dbOk o1 o2 s).1 = DeleteResponse.deleted id ∧
      statusGET id (deleteDELETE id dbOk o1 o2 s).2 = StatusResponse.notFound ∧
      (∀ sid v, v ∈ sessionImages sid (deleteDELETE id dbOk o1 o2 s).2 → v.id ≠ id)) := by
  constructor
  · intro hnone
    simp [deleteDELETE, hnone]
  · intro job hfind hdb
    have hdel : deleteDELETE id dbOk o1 o2 s =
        (DeleteResponse.deleted id,
         { jobs := s.jobs.filter (fun (j : Job) => ! (j.id == id))
           originalBlobs :=
             removeIfOk o1 (popSegment job.original_url) s.originalBlobs
           processedBlobs :=
             removeIfOk o2 (job.processed_url.bind popSegment) s.processedBlobs }) := by
      simp [deleteDELETE, hfind, hdb]
    refine ⟨by rw [hdel], ?_, ?_⟩
    · rw [hdel]
      simp only [statusGET, findJob]
      rw [find_filtered_out]
    · intro sid v hv
      rw [hdel] at hv
      simp only [sessionImages, List.mem_map] at hv
      obtain ⟨j, hj, rfl⟩ := hv
      have hj2 := (List.mem_insertionSort newestFirst).mp hj
      have hj3 := List.mem_filter.mp hj2
      have hj4 := List.mem_filter.mp hj3.1
      have : ¬ j.id = id := by simpa using hj4.2
      simpa [toView] using this

/-- A second session-s1 row, already completed, older than demoJob. -/
def olderJob : Job :=
  { completedJob with id := 5, created_at := 50, updated_at := 60 }

/-- A state holding two session-s1 rows and their stored objects. -/
def twoJobState : SysState :=
  { jobs := [olderJob, demoJob]
    originalBlobs := ["1-a.jpg"]
    processedBlobs := ["1-b.png"] }

/-- C7 witness at concrete inputs. -/
theorem delete_not_found_and_removal_witness :
    deleteDELETE 99 true true true emptyState = (DeleteResponse.notFound, emptyState) ∧
    (deleteDELETE 7 true true false twoJobState).1 = DeleteResponse.deleted 7 ∧
    statusGET 7 (deleteDELETE 7 true true false twoJobState).2 = StatusResponse.notFound :=
  ⟨(delete_not_found_and_removal 99 true true true emptyState).1 rfl,
   ((delete_not_found_and_removal 7 true true false twoJobState).2 demoJob rfl rfl).1,
   ((delete_not_found_and_removal 7 true true false twoJobState).2 demoJob rfl rfl).2.1⟩

/-- C10.  The session listing answers success with total equal to the
length of the returned images, the images ordered newest first by creation
time, and a session with no rows receives an ordinary success with an
empty array and total zero, never a not-found. -/
theorem session_listing_total_order_empty
    (sessionId : String) (qok : Bool) (s : SysState)
    (hsid : sessionId ≠ "") (hq : qok = true) :
    sessionGET sessionId qok s =
      SessionResponse.ok sessionId (sessionImages sessionId s)
        (sessionImages sessionId s).length ∧
    (sessionImages sessionId s).Sorted (fun a b => b.createdAt ≤ a.createdAt) ∧
    ((∀ j ∈ s.jobs, j.user_session_id ≠ some sessionId) →
      sessionGET sessionId qok s = SessionResponse.ok sessionId [] 0) := by
  have hmain : sessionGET sessionId qok s =
      SessionResponse.ok sessionId (sessionImages sessionId s)
        (sessionImages sessionId s).length := by
    simp [sessionGET, hsid, hq]
  refine ⟨hmain, ?_, ?_⟩
  · exact List.Pairwise.map toView (fun a b hab => hab)
      (List.sorted_insertionSort newestFirst _)
  · intro hnone
    have hfil : s.jobs.filter
        (fun (j : Job) => j.user_session_id == some sessionId) = [] := by
      apply List.filter_eq_nil_iff.mpr
      intro j hj
      simpa using hnone j hj
    have : sessionImages sessionId s = [] := by
      simp [sessionImages, hfil]
    rw [hmain, this]
    rfl

/-- C10 witness at concrete inputs. -/
theorem session_listing_witness :
    sessionGET "s1" true twoJobState =
      SessionResponse.ok "s1" (sessionImages "s1" twoJobState)
        (sessionImages "s1" twoJobState).length ∧
    sessionGET "nobody" true twoJobState = SessionResponse.ok "nobody" [] 0 :=
  ⟨(session_listing_total_order_empty "s1" true twoJobState (by decide) rfl).1,
   (session_listing_total_order_empty "nobody" true twoJobState (by decide) rfl).2.2
     (by decide)⟩

/-- Bounding the rounded quotient from above: Math.round of num over den is
at most bound iff doubling clears the half. -/
theorem jsRound_le_iff (num den bound : Nat) (hden : 0 < den) :
    jsRound num den ≤ bound ↔ 2 * num + den < (bound + 1) * (2 * den) := by
  unfold jsRound
  rw [← Nat.lt_succ_iff]
  exact Nat.div_lt_iff_lt_mul (by omega)

/-- Bounding the rounded quotient from below. -/
theorem le_jsRound_iff (num den bound : Nat) (hden : 0 < den) :
    bound ≤ jsRound num den ↔ bound * (2 * den) ≤ 2 * num + den := by
  unfold jsRound
  exact Nat.le_div_iff_mul_le (by omega)

/-- The oversize branch of resizeDims spelled out. -/
theorem resizeDims_of_oversize (w h : Nat)
    (hout : ¬ (w ≤ maxDimWidth ∧ h ≤ maxDimHeight)) :
    resizeDims w h =
      if maxDimHeight < jsRound (maxDimWidth * h) w then
        (jsRound (maxDimHeight * w) h, maxDimHeight)
      else (maxDimWidth, jsRound (maxDimWidth * h) w) := by
  simp [resizeDims, hout]

/-- C3.  The resize step passes an in-bounds image through unchanged, and
on an oversize image the two-pass rounded fit yields dimensions that never
exceed either configured maximum and never exceed the input dimensions. -/
theorem resize_pass_through_and_bounds (w h : Nat) (hw : 0 < w) (hh : 0 < h) :
    (w ≤ maxDimWidth ∧ h ≤ maxDimHeight → resizeDims w h = (w, h)) ∧
    (¬ (w ≤ maxDimWidth ∧ h ≤ maxDimHeight) →
      (resizeDims w h).1 ≤ maxDimWidth ∧ (resizeDims w h).2 ≤ maxDimHeight ∧
      (resizeDims w h).1 ≤ w ∧ (resizeDims w h).2 ≤ h) := by
  constructor
  · intro hin
    simp [resizeDims, hin]
  · intro hout
    rw [resizeDims_of_oversize w h hout]
    have hbig : 4096 < w ∨ 4096 < h := by
      rcases not_and_or.mp hout with h1 | h1
      · exact Or.inl (Nat.lt_of_not_le h1)
      · exact Or.inr (Nat.lt_of_not_le h1)
    by_cases hsec : maxDimHeight < jsRound (maxDimWidth * h) w
    · rw [if_pos hsec]
      have h1 : 4097 ≤ jsRound (4096 * h) w := hsec
      have h2 := (le_jsRound_iff (4096 * h) w 4097 hw).mp h1
      have hkey : 8193 * w ≤ 8192 * h := by omega
      have hh4097 : 4097 ≤ h := by
        rcases hbig with hb | hb <;> omega
      have hp : 8194 * w ≤ 2 * h * w := by
        have h8 : 8194 ≤ 2 * h := by omega
        exact mul_le_mul_right' h8 w
      refine ⟨?_, ?_, ?_, ?_⟩
      · show jsRound (4096 * w) h ≤ 4096
        apply (jsRound_le_iff (4096 * w) h 4096 hh).mpr
        omega
      · show (4096 : Nat) ≤ 4096
        exact Nat.le_refl 4096
      · show jsRound (4096 * w) h ≤ w
        apply (jsRound_le_iff (4096 * w) h w hh).mpr
        nlinarith [hp]
      · show (4096 : Nat) ≤ h
        omega
    · rw [if_neg hsec]
      have hA : jsRound (4096 * h) w ≤ 4096 := Nat.le_of_not_lt hsec
      have hwbig : 4097 ≤ w := by
        by_contra hc
        have hc2 : w ≤ 4096 := by omega
        have hhbig : 4097 ≤ h := by
          rcases hbig with hb | hb <;> omega
        have h1 : 4097 ≤ jsRound (4096 * h) w := by
          apply (le_jsRound_iff (4096 * h) w 4097 hw).mpr
          omega
        omega
      have hp : 8194 * h ≤ 2 * w * h := by
        have h8 : 8194 ≤ 2 * w := by omega
        exact mul_le_mul_right' h8 h
      refine ⟨?_, ?_, ?_, ?_⟩
      · show (4096 : Nat) ≤ 4096
        exact Nat.le_refl 4096
      · exact hA
      · show (4096 : Nat) ≤ w
        omega
      · show jsRound (4096 * h) w ≤ h
        apply (jsRound_le_iff (4096 * h) w h hw).mpr
        nlinarith [hp]

/-- C3 witness at concrete inputs: one pass-through image and one oversize
image, with the theorem applied and its hypotheses discharged there. -/
theorem resize_pass_through_and_bounds_witness :
    resizeDims 500 500 = (500, 500) ∧
    ((resizeDims 5000 3000).1 ≤ maxDimWidth ∧ (resizeDims 5000 3000).2 ≤ maxDimHeight ∧
      (resizeDims 5000 3000).1 ≤ 5000 ∧ (resizeDims 5000 3000).2 ≤ 3000) :=
  ⟨(resize_pass_through_and_bounds 500 500 (by decide) (by decide)).1 (by decide),
   (resize_pass_through_and_bounds 5000 3000 (by decide) (by decide)).2 (by decide)⟩

end BgRemover
